import Mathlib

/-!
Shallow embedding of `src/main.py` (taipy-pricecatcher): a Taipy GUI app that
downloads a DuckDB file from Google Drive and runs user SQL against it.

External collaborators (the DuckDB engine, the Google Drive API, the JSON
parser, pandas, the filesystem clock) are modelled as oracles: explicit
function/`Except` parameters whose outcomes the embedded code branches on,
exactly as the Python code branches on the corresponding calls' outcomes.
All state mutation is explicit state passing; `notify` calls are returned as
a list of (level, message) pairs; a Python exception escaping a `try` block
is an `Except.error` carrying `str(e)`.
-/

/-- A cell of a pandas DataFrame, as far as the claims need: the source's
example data holds ints and strings. -/
inductive Cell where
  | int (i : Int)
  | str (s : String)
deriving Repr, DecidableEq

/-- How pandas renders a cell into CSV text (no quoting is needed for the
cells that appear here: none contains a separator or quote). -/
def Cell.render : Cell → String
  | .int i => toString i
  | .str s => s

/-- A pandas DataFrame: named columns and rows of cells, as produced by
`fetchdf()` and consumed by `to_csv`. -/
structure DataFrame where
  columns : List String
  rows : List (List Cell)
deriving Repr, DecidableEq

/-- `DataFrame.to_csv(index=False)`: the header line then one line per row,
fields separated by commas, each line terminated by a newline, no index
column. -/
def DataFrame.to_csv (df : DataFrame) : String :=
  String.intercalate "," df.columns ++ "\n"
    ++ String.join (df.rows.map (fun r => String.intercalate "," (r.map Cell.render) ++ "\n"))

/-- One column descriptor as DuckDB's `DESCRIBE` reports it: column name and
column type. -/
structure ColumnDesc where
  name : String
  ty : String
deriving Repr, DecidableEq

/-- A table of the opened DuckDB database: its name and its columns. -/
structure Table where
  name : String
  cols : List ColumnDesc
deriving Repr, DecidableEq

/-- The content of the opened database, as far as schema introspection sees
it: the list of its tables. -/
abbrev Database := List Table

/-- Engine semantics of `SHOW TABLES`: the names of the tables. -/
def showTables (db : Database) : List String := db.map Table.name

/-- Engine semantics of `DESCRIBE t`: the columns of the table named `t`. -/
def describeTable (db : Database) (t : String) : List ColumnDesc :=
  match db.find? (fun tbl => tbl.name = t) with
  | some tbl => tbl.cols
  | none => []

/-- `db_manager.table_info`: a mapping (Python dict, here an insertion-ordered
association list) from table name to that table's column descriptors. -/
abbrev SchemaInfo := List (String × List ColumnDesc)

/-- A file as Google Drive's `files().list()` returns it with
`fields='files(id, name)'`. -/
structure DriveFile where
  id : String
  name : String
deriving Repr, DecidableEq

/-- The state of the `DuckDBGDriveManager` instance plus the temporary
directory it owns. `tempDir = some fs` means the directory created by
`tempfile.mkdtemp()` exists and holds the files `fs`; `none` means it was
removed. `db = some d` means `self._connection` holds a handle onto the
database `d`; `sessionOpen` records whether that handle is open. -/
structure Manager where
  sessionOpen : Bool
  db : Option Database
  table_info : Option SchemaInfo
  tempDir : Option (List String)
deriving Repr

/-- `DuckDBGDriveManager.__init__`: fresh temporary directory, no connection,
no schema snapshot. -/
def DuckDBGDriveManager.mk : Manager :=
  { sessionOpen := false, db := none, table_info := none, tempDir := some [] }

/-- Outcomes of the external calls made inside `initialize_connection`, in
the order the source makes them: persisting the credentials file
(`json.dump`), authenticating (`from_service_account_file` + `build`), the
Drive lookup (`files().list().execute()`), the chunked download of a given
file id, `duckdb.connect` + the two `SET` statements (which on success
expose the database content `db` to later queries), and the engine calls
made by `_get_table_info` (`SHOW TABLES`, `DESCRIBE`, `fetchdf`):
`introspect = .ok ()` means those calls all return (with the catalog answers
`showTables`/`describeTable` give on `db`), `.error e` means one of them
raises with text `e`. An `Except.error e` anywhere models the call raising
an exception with text `e`. -/
structure InitEnv where
  persistCreds : Except String Unit
  auth : Except String Unit
  listFiles : Except String (List DriveFile)
  download : String → Except String Unit
  openDb : Except String Database
  introspect : Except String Unit

/-- What `initialize_connection` leaves behind: the manager state, the
returned boolean, the `print`-logged connection error if any, and which file
id (if any) was passed to `files().get_media`. -/
structure InitResult where
  manager : Manager
  success : Bool
  logged : Option String
  downloadedId : Option String
deriving Repr

/-- The text `print`ed by the `except` clause of `initialize_connection`. -/
def connectionErrorLog (e : String) : String := "Connection error: " ++ e

/-- `DuckDBGDriveManager._get_table_info`, lines 67-73: `SHOW TABLES`, then
`DESCRIBE` each listed table, collecting the results into a dict keyed by
table name in listing order. -/
def DuckDBGDriveManager._get_table_info (db : Database) : SchemaInfo :=
  (showTables db).map (fun n => (n, describeTable db n))

/-- `DuckDBGDriveManager.initialize_connection`, lines 24-65 of
`src/main.py`. Every failing step's exception is caught by the single
`except Exception` clause, logged and turned into `False`; an empty lookup
result raises `FileNotFoundError` with the source's message, caught the same
way. On the success path the creds file and the downloaded database file
appear in the temporary directory, the connection opens and the schema
snapshot is computed by `_get_table_info`; the engine calls inside
`_get_table_info` (line 61 is inside the `try`) may themselves raise, in
which case the connection handle stays assigned, `table_info` stays as it
was, and the method logs and returns `False` like every other step. -/
def DuckDBGDriveManager.initialize_connection (env : InitEnv) (m : Manager) : InitResult :=
  match env.persistCreds with
  | .error e => ⟨m, false, some (connectionErrorLog e), none⟩
  | .ok _ =>
    let m1 : Manager := { m with tempDir := m.tempDir.map (fun fs => fs ++ ["creds.json"]) }
    match env.auth with
    | .error e => ⟨m1, false, some (connectionErrorLog e), none⟩
    | .ok _ =>
      match env.listFiles with
      | .error e => ⟨m1, false, some (connectionErrorLog e), none⟩
      | .ok files =>
        match files with
        | [] =>
          ⟨m1, false,
            some (connectionErrorLog "Could not find pricecatcher.duckdb in the specified folder"),
            none⟩
        | f :: _ =>
          let m2 : Manager :=
            { m1 with tempDir := m1.tempDir.map (fun fs => fs ++ ["pricecatcher.duckdb"]) }
          match env.download f.id with
          | .error e => ⟨m2, false, some (connectionErrorLog e), some f.id⟩
          | .ok _ =>
            match env.openDb with
            | .error e => ⟨m2, false, some (connectionErrorLog e), some f.id⟩
            | .ok db =>
              let m3 : Manager := { m2 with sessionOpen := true, db := some db }
              match env.introspect with
              | .error e => ⟨m3, false, some (connectionErrorLog e), some f.id⟩
              | .ok _ =>
                ⟨{ m3 with table_info := some (DuckDBGDriveManager._get_table_info db) },
                  true, none, some f.id⟩

/-- `DuckDBGDriveManager.execute_query`, lines 75-81: with no connection the
method's own `raise Exception("Database not connected")` is caught by its
`except` clause and re-raised as `Query execution failed: ...`; otherwise the
query text goes verbatim to the engine and an engine error `e` is re-raised
as `"Query execution failed: " ++ e`. The engine is the oracle
`engine db query`. -/
def DuckDBGDriveManager.execute_query (m : Manager)
    (engine : Database → String → Except String DataFrame) (query : String) :
    Except String DataFrame :=
  match m.db with
  | none => .error ("Query execution failed: " ++ "Database not connected")
  | some db =>
    match engine db query with
    | .ok df => .ok df
    | .error e => .error ("Query execution failed: " ++ e)

/-- `DuckDBGDriveManager.cleanup`, lines 83-88: close the connection if the
handle exists, then `shutil.rmtree` the temporary directory (with everything
inside it) if it exists. -/
def DuckDBGDriveManager.cleanup (m : Manager) : Manager :=
  let m1 : Manager := if m.db.isSome then { m with sessionOpen := false } else m
  match m1.tempDir with
  | some _ => { m1 with tempDir := none }
  | none => m1

/-- The Taipy `State`, lines 94-101, over an abstract type `Cred` of parsed
credential structures (the code stores whatever `json.loads` returns). -/
structure AppState (Cred : Type) where
  credentials_content : Option Cred
  connection_status : Bool
  query : String
  results : Option DataFrame
  table_info : Option SchemaInfo
  execution_time : Option Nat
  error_message : Option String

/-- The initial state set in lines 94-101 of `src/main.py`. -/
def initialState (Cred : Type) : AppState Cred :=
  { credentials_content := none
    connection_status := false
    query := "SELECT *\nFROM your_table\nLIMIT 5;"
    results := none
    table_info := none
    execution_time := none
    error_message := none }

/-- A `notify(state, level, message)` call, recorded as (level, message). -/
abbrev Notification := String × String

/-- `on_file_upload`, lines 103-110: try `json.loads` (the oracle `parse`);
on success store the parsed structure and return it; on a parse error with
text `e`, notify `"Invalid credentials file: " ++ e` and return `None`,
leaving the stored credentials as they were. Returns (new state,
notifications, returned value). -/
def on_file_upload {Cred : Type} (parse : String → Except String Cred)
    (st : AppState Cred) (file : String) :
    AppState Cred × List Notification × Option Cred :=
  match parse file with
  | .ok content => ({ st with credentials_content := some content }, [], some content)
  | .error e => (st, [("error", "Invalid credentials file: " ++ e)], none)

/-- `connect_database`, lines 112-121. The Python guard is
`if state.credentials_content:`; the embedding branches on the credentials
being set (`None` is falsy; a set-but-falsy credential value such as an
empty dict is not distinguished here, no claim depends on it). Returns
(manager, state, notifications). -/
def connect_database {Cred : Type} (env : InitEnv) (m : Manager) (st : AppState Cred) :
    Manager × AppState Cred × List Notification :=
  match st.credentials_content with
  | some _ =>
    let r := DuckDBGDriveManager.initialize_connection env m
    if r.success then
      (r.manager,
        { st with connection_status := true, table_info := r.manager.table_info },
        [("success", "Connected successfully!")])
    else
      (r.manager, st, [("error", "Connection failed")])
  | none => (m, st, [("error", "Please upload credentials first")])

/-- `execute_query` (the Taipy action), lines 123-137. `duration` is the
wall-clock difference the two `datetime.now()` calls measure. On success the
results and execution time are stored and `error_message` is reset to `None`;
on failure `error_message` is set to the exception text and nothing else in
the state changes. Returns (new state, notifications). -/
def execute_query {Cred : Type} (m : Manager)
    (engine : Database → String → Except String DataFrame) (duration : Nat)
    (st : AppState Cred) : AppState Cred × List Notification :=
  if !st.connection_status then
    (st, [("error", "Please connect to database first")])
  else
    match DuckDBGDriveManager.execute_query m engine st.query with
    | .ok df =>
      ({ st with
          results := some df
          execution_time := some duration
          error_message := none },
        [("success", "Query executed in " ++ toString duration ++ " seconds")])
    | .error e =>
      ({ st with error_message := some e }, [("error", e)])

/-- `download_results`, lines 139-142: the CSV text of the stored results, or
`None` when there are none. -/
def download_results {Cred : Type} (st : AppState Cred) : Option String :=
  match st.results with
  | some df => some (df.to_csv)
  | none => none

/-! ## Theorems about the claims -/

/-- C7: for the result with columns `[a, b]` and rows `[(1, "x"), (2, "y")]`,
`download_results` returns exactly the header line `a,b` followed by the
lines `1,x` and `2,y` (each newline-terminated), with no index column. -/
theorem c7_download_results_exact_csv :
    download_results
      { initialState Unit with
          results := some ⟨["a", "b"], [[Cell.int 1, Cell.str "x"], [Cell.int 2, Cell.str "y"]]⟩ }
      = some "a,b\n1,x\n2,y\n" := by
  rfl

/-- C3: whenever `connection_status` is false, the execute-query action
notifies the "not connected" error, leaves the state unchanged, and its
outcome is independent of the manager, the engine and the clock (so no call
into the session manager's query method is made). -/
theorem c3_execute_query_requires_connection {Cred : Type} (m m2 : Manager)
    (engine engine2 : Database → String → Except String DataFrame) (d d2 : Nat)
    (st : AppState Cred) (h : st.connection_status = false) :
    execute_query m engine d st = (st, [("error", "Please connect to database first")])
      ∧ execute_query m engine d st = execute_query m2 engine2 d2 st := by
  simp [execute_query, h]

/-- Witness for C3 at the initial state. -/
theorem c3_witness :
    execute_query DuckDBGDriveManager.mk
        (fun _ _ => Except.ok ⟨[], []⟩) 0 (initialState Unit)
      = (initialState Unit, [("error", "Please connect to database first")]) :=
  (c3_execute_query_requires_connection DuckDBGDriveManager.mk DuckDBGDriveManager.mk
    (fun _ _ => Except.ok ⟨[], []⟩) (fun _ _ => Except.ok ⟨[], []⟩) 0 0
    (initialState Unit) rfl).1

/-- C4: whenever no credentials are stored, the connect action notifies
"Please upload credentials first", changes nothing, and its outcome is
independent of the remote environment (so the fetcher makes no network
call). -/
theorem c4_connect_requires_credentials {Cred : Type} (env env2 : InitEnv)
    (m : Manager) (st : AppState Cred) (h : st.credentials_content = none) :
    connect_database env m st = (m, st, [("error", "Please upload credentials first")])
      ∧ connect_database env m st = connect_database env2 m st := by
  simp [connect_database, h]

/-- Witness for C4 at the initial state. -/
theorem c4_witness :
    connect_database
        ⟨Except.ok (), Except.ok (), Except.ok [], fun _ => Except.ok (), Except.ok [], Except.ok ()⟩
        DuckDBGDriveManager.mk (initialState Unit)
      = (DuckDBGDriveManager.mk, initialState Unit,
          [("error", "Please upload credentials first")]) :=
  (c4_connect_requires_credentials
    ⟨Except.ok (), Except.ok (), Except.ok [], fun _ => Except.ok (), Except.ok [], Except.ok ()⟩
    ⟨Except.ok (), Except.ok (), Except.ok [], fun _ => Except.ok (), Except.ok [], Except.ok ()⟩
    DuckDBGDriveManager.mk (initialState Unit) rfl).1

/-- C9: for every manager state, `cleanup` removes the temporary directory
together with all of its contents (no residual temporary files remain), and
if a connection handle exists it is closed. -/
theorem c9_cleanup_removes_everything (m : Manager) :
    (DuckDBGDriveManager.cleanup m).tempDir = none
      ∧ (m.db.isSome = true → (DuckDBGDriveManager.cleanup m).sessionOpen = false) := by
  rcases m with ⟨so, mdb, ti, td⟩
  cases mdb <;> cases td <;> simp [DuckDBGDriveManager.cleanup]

/-- Witness for C9 on a connected manager with both temporary files. -/
theorem c9_witness :
    (DuckDBGDriveManager.cleanup
        ⟨true, some [], none, some ["creds.json", "pricecatcher.duckdb"]⟩).tempDir = none
      ∧ (DuckDBGDriveManager.cleanup
          ⟨true, some [], none, some ["creds.json", "pricecatcher.duckdb"]⟩).sessionOpen
          = false :=
  ⟨(c9_cleanup_removes_everything
      ⟨true, some [], none, some ["creds.json", "pricecatcher.duckdb"]⟩).1,
    (c9_cleanup_removes_everything
      ⟨true, some [], none, some ["creds.json", "pricecatcher.duckdb"]⟩).2 rfl⟩

/-- C2: if the input parses as JSON, `on_file_upload` stores exactly the
parsed structure (and returns it, raising nothing); if parsing fails, the
stored credentials stay unset and an error notification is emitted. -/
theorem c2_on_file_upload_spec {Cred : Type} (parse : String → Except String Cred)
    (st : AppState Cred) (file : String) :
    (∀ c, parse file = Except.ok c →
        on_file_upload parse st file
          = ({ st with credentials_content := some c }, [], some c))
      ∧ ∀ e, parse file = Except.error e →
          (on_file_upload parse st file).1.credentials_content = st.credentials_content
            ∧ (st.credentials_content = none →
                (on_file_upload parse st file).1.credentials_content = none)
            ∧ (on_file_upload parse st file).2.1
                = [("error", "Invalid credentials file: " ++ e)] := by
  constructor
  · intro c hc
    simp [on_file_upload, hc]
  · intro e he
    simp [on_file_upload, he]

/-- Witness for C2: a parse that accepts exactly the input "ok". -/
theorem c2_witness :
    (on_file_upload (fun s => if s = "ok" then Except.ok () else Except.error "bad")
        (initialState Unit) "ok"
      = ({ initialState Unit with credentials_content := some () }, [], some ()))
      ∧ (on_file_upload (fun s => if s = "ok" then Except.ok () else Except.error "bad")
          (initialState Unit) "no").1.credentials_content = none
      ∧ (on_file_upload (fun s => if s = "ok" then Except.ok () else Except.error "bad")
          (initialState Unit) "no").2.1
          = [("error", "Invalid credentials file: " ++ "bad")] :=
  ⟨(c2_on_file_upload_spec (fun s => if s = "ok" then Except.ok () else Except.error "bad")
      (initialState Unit) "ok").1 () rfl,
    ((c2_on_file_upload_spec (fun s => if s = "ok" then Except.ok () else Except.error "bad")
      (initialState Unit) "no").2 "bad" rfl).2.1 rfl,
    ((c2_on_file_upload_spec (fun s => if s = "ok" then Except.ok () else Except.error "bad")
      (initialState Unit) "no").2 "bad" rfl).2.2⟩

/-- C10: with a connection established, a successful execution resets the
stored error message to `None`; a failed execution stores the failure text as
the error message and leaves the execution time unchanged from the previous
run. -/
theorem c10_error_message_reset_and_time_frame {Cred : Type} (m : Manager)
    (engine : Database → String → Except String DataFrame) (d : Nat)
    (st : AppState Cred) (h : st.connection_status = true) :
    (∀ df, DuckDBGDriveManager.execute_query m engine st.query = Except.ok df →
        (execute_query m engine d st).1.error_message = none)
      ∧ ∀ e, DuckDBGDriveManager.execute_query m engine st.query = Except.error e →
          (execute_query m engine d st).1.error_message = some e
            ∧ (execute_query m engine d st).1.execution_time = st.execution_time := by
  constructor
  · intro df hq
    simp [execute_query, h, hq]
  · intro e hq
    simp [execute_query, h, hq]

/-- Witness for C10 on a one-table database with an engine that answers the
initial query and one that rejects it. -/
theorem c10_witness :
    (execute_query ⟨true, some [], none, some []⟩
        (fun _ _ => Except.ok ⟨["x"], [[Cell.int 1]]⟩) 2
        { initialState Unit with connection_status := true }).1.error_message = none
      ∧ (execute_query ⟨true, some [], none, some []⟩
          (fun _ _ => Except.error "boom") 2
          { initialState Unit with
              connection_status := true
              execution_time := some 7 }).1.error_message
          = some ("Query execution failed: " ++ "boom")
      ∧ (execute_query ⟨true, some [], none, some []⟩
          (fun _ _ => Except.error "boom") 2
          { initialState Unit with
              connection_status := true
              execution_time := some 7 }).1.execution_time = some 7 :=
  ⟨(c10_error_message_reset_and_time_frame ⟨true, some [], none, some []⟩
      (fun _ _ => Except.ok ⟨["x"], [[Cell.int 1]]⟩) 2
      { initialState Unit with connection_status := true } rfl).1
      ⟨["x"], [[Cell.int 1]]⟩ rfl,
    ((c10_error_message_reset_and_time_frame ⟨true, some [], none, some []⟩
      (fun _ _ => Except.error "boom") 2
      { initialState Unit with
          connection_status := true
          execution_time := some 7 } rfl).2
      ("Query execution failed: " ++ "boom") rfl).1,
    ((c10_error_message_reset_and_time_frame ⟨true, some [], none, some []⟩
      (fun _ _ => Except.error "boom") 2
      { initialState Unit with
          connection_status := true
          execution_time := some 7 } rfl).2
      ("Query execution failed: " ++ "boom") rfl).2⟩

/-- C1 counterexample: with an open session, previous results stored, and an
engine that rejects the query with the text
"Parser Error: syntax error at or near SELEC", the error message surfaced to
the user is not the engine's error text unchanged (it carries the
"Query execution failed: " prefix). -/
theorem c1_counterexample :
    (execute_query ⟨true, some [], none, some []⟩
        (fun _ _ => Except.error "Parser Error: syntax error at or near SELEC") 0
        { initialState Unit with
            connection_status := true
            query := "SELEC * FROM t"
            results := some ⟨["a"], [[Cell.int 1]]⟩ }).1.error_message
      ≠ some "Parser Error: syntax error at or near SELEC" := by
  decide

/-- C1 (amended): with an open session, when the engine rejects the query
with error text `err`, the surfaced message (stored and notified) is exactly
"Query execution failed: " followed by the engine's text unchanged, and the
previously stored results are left untouched. -/
theorem c1_engine_error_prefixed_results_untouched {Cred : Type} (m : Manager)
    (db : Database) (engine : Database → String → Except String DataFrame)
    (d : Nat) (st : AppState Cred) (err : String)
    (hconn : st.connection_status = true) (hdb : m.db = some db)
    (heng : engine db st.query = Except.error err) :
    (execute_query m engine d st).1.error_message
        = some ("Query execution failed: " ++ err)
      ∧ (execute_query m engine d st).1.results = st.results
      ∧ (execute_query m engine d st).2
          = [("error", "Query execution failed: " ++ err)] := by
  simp [execute_query, DuckDBGDriveManager.execute_query, hconn, hdb, heng]

/-- Witness for the amended C1 at the counterexample's input. -/
theorem c1_witness :
    (execute_query ⟨true, some [], none, some []⟩
        (fun _ _ => Except.error "Parser Error: syntax error at or near SELEC") 0
        { initialState Unit with
            connection_status := true
            query := "SELEC * FROM t"
            results := some ⟨["a"], [[Cell.int 1]]⟩ }).1.error_message
        = some ("Query execution failed: " ++ "Parser Error: syntax error at or near SELEC")
      ∧ (execute_query ⟨true, some [], none, some []⟩
          (fun _ _ => Except.error "Parser Error: syntax error at or near SELEC") 0
          { initialState Unit with
              connection_status := true
              query := "SELEC * FROM t"
              results := some ⟨["a"], [[Cell.int 1]]⟩ }).1.results
          = some ⟨["a"], [[Cell.int 1]]⟩ :=
  ⟨(c1_engine_error_prefixed_results_untouched ⟨true, some [], none, some []⟩ []
      (fun _ _ => Except.error "Parser Error: syntax error at or near SELEC") 0
      { initialState Unit with
          connection_status := true
          query := "SELEC * FROM t"
          results := some ⟨["a"], [[Cell.int 1]]⟩ }
      "Parser Error: syntax error at or near SELEC" rfl rfl rfl).1,
    (c1_engine_error_prefixed_results_untouched ⟨true, some [], none, some []⟩ []
      (fun _ _ => Except.error "Parser Error: syntax error at or near SELEC") 0
      { initialState Unit with
          connection_status := true
          query := "SELEC * FROM t"
          results := some ⟨["a"], [[Cell.int 1]]⟩ }
      "Parser Error: syntax error at or near SELEC" rfl rfl rfl).2.1⟩

/-- C5: once the credential-persist and authentication steps have succeeded,
an empty lookup result makes `initialize_connection` fail with the "not
found" condition (logging the source's message) without requesting any
download, while a non-empty result makes it request the download of the
first listed file's id. -/
theorem c5_lookup_empty_or_first_match (env : InitEnv) (m : Manager)
    (hp : env.persistCreds = Except.ok ()) (ha : env.auth = Except.ok ()) :
    (env.listFiles = Except.ok [] →
        (DuckDBGDriveManager.initialize_connection env m).success = false
          ∧ (DuckDBGDriveManager.initialize_connection env m).logged
              = some (connectionErrorLog
                  "Could not find pricecatcher.duckdb in the specified folder")
          ∧ (DuckDBGDriveManager.initialize_connection env m).downloadedId = none)
      ∧ ∀ f fs, env.listFiles = Except.ok (f :: fs) →
          (DuckDBGDriveManager.initialize_connection env m).downloadedId = some f.id := by
  constructor
  · intro hl
    simp [DuckDBGDriveManager.initialize_connection, hp, ha, hl]
  · intro f fs hl
    cases hd : env.download f.id with
    | error e =>
      simp [DuckDBGDriveManager.initialize_connection, hp, ha, hl, hd]
    | ok u =>
      cases ho : env.openDb with
      | error e =>
        simp [DuckDBGDriveManager.initialize_connection, hp, ha, hl, hd, ho]
      | ok db =>
        cases hi : env.introspect with
        | error e =>
          simp [DuckDBGDriveManager.initialize_connection, hp, ha, hl, hd, ho, hi]
        | ok v =>
          simp [DuckDBGDriveManager.initialize_connection, hp, ha, hl, hd, ho, hi]

/-- Witness for C5: one environment whose lookup returns nothing, one whose
lookup returns a single match. -/
theorem c5_witness :
    (DuckDBGDriveManager.initialize_connection
        ⟨Except.ok (), Except.ok (), Except.ok [], fun _ => Except.ok (), Except.ok [], Except.ok ()⟩
        DuckDBGDriveManager.mk).success = false
      ∧ (DuckDBGDriveManager.initialize_connection
          ⟨Except.ok (), Except.ok (),
            Except.ok [⟨"id1", "pricecatcher.duckdb"⟩],
            fun _ => Except.ok (), Except.ok [], Except.ok ()⟩
          DuckDBGDriveManager.mk).downloadedId = some "id1" :=
  ⟨((c5_lookup_empty_or_first_match
      ⟨Except.ok (), Except.ok (), Except.ok [], fun _ => Except.ok (), Except.ok [], Except.ok ()⟩
      DuckDBGDriveManager.mk rfl rfl).1 rfl).1,
    (c5_lookup_empty_or_first_match
      ⟨Except.ok (), Except.ok (),
        Except.ok [⟨"id1", "pricecatcher.duckdb"⟩],
        fun _ => Except.ok (), Except.ok [], Except.ok ()⟩
      DuckDBGDriveManager.mk rfl rfl).2 ⟨"id1", "pricecatcher.duckdb"⟩ [] rfl⟩

/-- Every step of `initialize_connection` succeeding: the credential file is
written, authentication succeeds, the lookup returns at least one file, the
download of the first match succeeds, the database opens, and the schema
introspection's engine calls all return. -/
def initStepsOk (env : InitEnv) : Prop :=
  env.persistCreds = Except.ok () ∧ env.auth = Except.ok ()
    ∧ (∃ f fs, env.listFiles = Except.ok (f :: fs) ∧ env.download f.id = Except.ok ()
        ∧ ∃ db, env.openDb = Except.ok db)
    ∧ env.introspect = Except.ok ()

/-- Helper: `initialize_connection` returns `true` exactly when every step
completes, and on the success path records the schema snapshot of the opened
database. -/
theorem init_success_characterization (env : InitEnv) (m : Manager) :
    ((DuckDBGDriveManager.initialize_connection env m).success = true ↔ initStepsOk env)
      ∧ ((DuckDBGDriveManager.initialize_connection env m).success = true →
          ∀ db, env.openDb = Except.ok db →
            (DuckDBGDriveManager.initialize_connection env m).manager.table_info
              = some (DuckDBGDriveManager._get_table_info db))
      ∧ ((DuckDBGDriveManager.initialize_connection env m).success = false →
          ((DuckDBGDriveManager.initialize_connection env m).logged).isSome = true) := by
  cases hp : env.persistCreds with
  | error e =>
    simp [DuckDBGDriveManager.initialize_connection, hp, initStepsOk]
  | ok u =>
    cases u
    cases ha : env.auth with
    | error e =>
      simp [DuckDBGDriveManager.initialize_connection, hp, ha, initStepsOk]
    | ok v =>
      cases v
      cases hl : env.listFiles with
      | error e =>
        simp [DuckDBGDriveManager.initialize_connection, hp, ha, hl, initStepsOk]
      | ok files =>
        cases files with
        | nil =>
          simp [DuckDBGDriveManager.initialize_connection, hp, ha, hl, initStepsOk]
        | cons f fs =>
          cases hd : env.download f.id with
          | error e =>
            simp [DuckDBGDriveManager.initialize_connection, hp, ha, hl, hd, initStepsOk]
          | ok w =>
            cases w
            cases ho : env.openDb with
            | error e =>
              simp [DuckDBGDriveManager.initialize_connection, hp, ha, hl, hd, ho,
                initStepsOk]
            | ok db =>
              cases hi : env.introspect with
              | error e =>
                simp [DuckDBGDriveManager.initialize_connection, hp, ha, hl, hd, ho, hi,
                  initStepsOk]
              | ok w2 =>
                cases w2
                refine ⟨?_, ?_, ?_⟩
                · simp [DuckDBGDriveManager.initialize_connection, hp, ha, hl, hd, ho, hi,
                    initStepsOk]
                · intro _ db2 hdb2
                  have hdbeq : db = db2 := Except.ok.inj hdb2
                  subst hdbeq
                  simp [DuckDBGDriveManager.initialize_connection, hp, ha, hl, hd, ho, hi]
                · intro hfalse
                  rw [show (DuckDBGDriveManager.initialize_connection env m).success = true
                      by simp [DuckDBGDriveManager.initialize_connection, hp, ha, hl, hd,
                        ho, hi]]
                    at hfalse
                  cases hfalse

/-- C6: `initialize_connection` returns `true` exactly when every step
(credential persistence, authentication, a non-empty remote lookup, the
download, the database open, and the schema introspection's engine calls)
completes — so any step's exception, introspection included, yields
`false` — and whenever it returns `false` a connection-error message was
logged. -/
theorem c6_failure_collapses_to_false (env : InitEnv) (m : Manager) :
    ((DuckDBGDriveManager.initialize_connection env m).success = true ↔ initStepsOk env)
      ∧ ((DuckDBGDriveManager.initialize_connection env m).success = false →
          ((DuckDBGDriveManager.initialize_connection env m).logged).isSome = true) :=
  ⟨(init_success_characterization env m).1, (init_success_characterization env m).2.2⟩

/-- Witness for C6 on an environment whose credential-persist step raises,
and on one where every step succeeds except the schema introspection. -/
theorem c6_witness :
    ((DuckDBGDriveManager.initialize_connection
        ⟨Except.error "disk full", Except.ok (), Except.ok [],
          fun _ => Except.ok (), Except.ok [], Except.ok ()⟩
        DuckDBGDriveManager.mk).logged).isSome = true
      ∧ ((DuckDBGDriveManager.initialize_connection
          ⟨Except.ok (), Except.ok (), Except.ok [⟨"id1", "pricecatcher.duckdb"⟩],
            fun _ => Except.ok (), Except.ok [], Except.error "catalog corrupt"⟩
          DuckDBGDriveManager.mk).logged).isSome = true :=
  ⟨(c6_failure_collapses_to_false
      ⟨Except.error "disk full", Except.ok (), Except.ok [],
        fun _ => Except.ok (), Except.ok [], Except.ok ()⟩
      DuckDBGDriveManager.mk).2 rfl,
    (c6_failure_collapses_to_false
      ⟨Except.ok (), Except.ok (), Except.ok [⟨"id1", "pricecatcher.duckdb"⟩],
        fun _ => Except.ok (), Except.ok [], Except.error "catalog corrupt"⟩
      DuckDBGDriveManager.mk).2 rfl⟩

/-- Helper: in a database whose table names are distinct, `DESCRIBE` on a
table's name yields exactly that table's columns. -/
theorem describeTable_eq_of_nodup (db : Database) (t : Table)
    (hnd : (db.map Table.name).Nodup) (ht : t ∈ db) :
    describeTable db t.name = t.cols := by
  induction db with
  | nil => cases ht
  | cons hd tl ih =>
    simp only [List.map_cons, List.nodup_cons] at hnd
    obtain ⟨hnotin, hnd2⟩ := hnd
    rcases List.mem_cons.mp ht with rfl | htl
    · simp [describeTable, List.find?]
    · have hne : ¬ hd.name = t.name := by
        intro h
        exact hnotin (by rw [h]; exact List.mem_map_of_mem Table.name htl)
      have hrec : describeTable tl t.name = t.cols := ih hnd2 htl
      simpa [describeTable, List.find?, hne] using hrec

/-- C8: after every successful connection onto a database with distinct
table names, the schema snapshot holds exactly one entry per table (its keys
are the table names in order) and each entry carries that table's columns
with their correct names; and the query action never touches the snapshot,
so it stays as computed at connection time. -/
theorem c8_schema_snapshot_exact :
    (∀ (env : InitEnv) (m : Manager) (db : Database),
        env.openDb = Except.ok db → (db.map Table.name).Nodup →
        (DuckDBGDriveManager.initialize_connection env m).success = true →
        ∃ l, (DuckDBGDriveManager.initialize_connection env m).manager.table_info = some l
          ∧ l.map Prod.fst = db.map Table.name
          ∧ ∀ t ∈ db, (t.name, t.cols) ∈ l)
      ∧ ∀ (Cred : Type) (m : Manager)
          (engine : Database → String → Except String DataFrame) (d : Nat)
          (st : AppState Cred),
          (execute_query m engine d st).1.table_info = st.table_info := by
  constructor
  · intro env m db hdb hnd hsucc
    refine ⟨DuckDBGDriveManager._get_table_info db,
      (init_success_characterization env m).2.1 hsucc db hdb, ?_, ?_⟩
    · simp [DuckDBGDriveManager._get_table_info, showTables, List.map_map, Function.comp]
    · intro t ht
      have hdesc : describeTable db t.name = t.cols := describeTable_eq_of_nodup db t hnd ht
      have h1 : t.name ∈ showTables db := List.mem_map_of_mem Table.name ht
      have h2 : (t.name, describeTable db t.name)
          ∈ (showTables db).map (fun n => (n, describeTable db n)) :=
        List.mem_map_of_mem (fun n => (n, describeTable db n)) h1
      rw [hdesc] at h2
      exact h2
  · intro Cred m engine d st
    rcases hb : st.connection_status with _ | _
    · simp [execute_query, hb]
    · cases hq : DuckDBGDriveManager.execute_query m engine st.query with
      | ok df => simp [execute_query, hb, hq]
      | error e => simp [execute_query, hb, hq]

/-- Witness for C8 on a one-table database downloaded by a fully successful
environment, and one query action. -/
theorem c8_witness :
    (∃ l, (DuckDBGDriveManager.initialize_connection
          ⟨Except.ok (), Except.ok (), Except.ok [⟨"id1", "pricecatcher.duckdb"⟩],
            fun _ => Except.ok (), Except.ok [⟨"price", [⟨"item", "VARCHAR"⟩]⟩], Except.ok ()⟩
          DuckDBGDriveManager.mk).manager.table_info = some l
        ∧ l.map Prod.fst = ([⟨"price", [⟨"item", "VARCHAR"⟩]⟩] : Database).map Table.name
        ∧ ∀ t ∈ ([⟨"price", [⟨"item", "VARCHAR"⟩]⟩] : Database), (t.name, t.cols) ∈ l)
      ∧ (execute_query DuckDBGDriveManager.mk
          (fun _ _ => Except.ok ⟨[], []⟩) 0 (initialState Unit)).1.table_info
          = (initialState Unit).table_info :=
  ⟨c8_schema_snapshot_exact.1
      ⟨Except.ok (), Except.ok (), Except.ok [⟨"id1", "pricecatcher.duckdb"⟩],
        fun _ => Except.ok (), Except.ok [⟨"price", [⟨"item", "VARCHAR"⟩]⟩], Except.ok ()⟩
      DuckDBGDriveManager.mk [⟨"price", [⟨"item", "VARCHAR"⟩]⟩] rfl (by simp) rfl,
    c8_schema_snapshot_exact.2 Unit DuckDBGDriveManager.mk
      (fun _ _ => Except.ok ⟨[], []⟩) 0 (initialState Unit)⟩
